import Mathlib

/-!
Verification of PgSmartVacuum (src/bloat_vacuum.py): a shallow embedding of the
bloat-detection and VACUUM-remediation pipeline, with proofs of the behavioural
claims about its prefilter, per-candidate state machine, run counters and exit
codes.  The database and the psycopg2 driver are modelled as inputs: each remote
call is represented by its result (success value, database error, or other
unexpected error), and the Lean definitions reproduce the control flow of the
Python source over those results.
-/

namespace BloatVacuum

/-- Result of one remote call, mirroring how the Python code can observe it:
success with a value, a psycopg2 database error (class `Error`), or any other
unexpected exception.  The two failure kinds are distinguished because the
source catches them with distinct `except` clauses. -/
inductive StepRes (α : Type) where
  | ok (a : α)
  | dbError (msg : String)
  | otherError (msg : String)
deriving DecidableEq

/-- True when the call did not succeed. -/
def StepRes.isErr {α : Type} : StepRes α → Bool
  | .ok _ => false
  | .dbError _ => true
  | .otherError _ => true

/-- The three per-candidate steps of the state machine, used to attribute a
skip to the step that failed (ANALYZE refresh, pgstattuple measurement, or the
VACUUM remediation).  Source: the three distinct SKIP log messages in main. -/
inductive Step where
  | refresh
  | measure
  | remediate
deriving DecidableEq

/-- Outcome recorded for one candidate by the loop body of `main`
(src/bloat_vacuum.py lines 391-436).  `analyzedBelow` is the below-threshold
path, `remediatedOk` the successful VACUUM path, `skippedError` a skip whose
log line names the failing step, `skippedUnexpected` the catch-all
`except Exception` path whose log line does not name a step. -/
inductive Outcome where
  | analyzedBelow
  | remediatedOk
  | skippedError (step : Step) (msg : String)
  | skippedUnexpected (msg : String)
deriving DecidableEq

/-- True for the two skip-shaped outcomes. -/
def Outcome.isSkip : Outcome → Bool
  | .skippedError _ _ => true
  | .skippedUnexpected _ => true
  | _ => false

/-- True exactly when the outcome is a skip attributed to the refresh step. -/
def Outcome.isRefreshAttributedSkip : Outcome → Bool
  | .skippedError .refresh _ => true
  | _ => false

/-- Behaviour of the database for one candidate: the result each of the three
per-candidate calls would return if the loop body issued it. -/
structure Behavior where
  analyzeRes : StepRes Unit
  measureRes : StepRes ℚ
  vacuumRes : StepRes Unit
deriving DecidableEq

/-- Everything the loop body of `main` does for one candidate: the recorded
outcome, the increments it applies to the analyzed / remediated / skipped
counters (checked always increments by one and is handled by the loop), and how
many times each of the three calls was actually issued. -/
structure CandResult where
  outcome : Outcome
  dAnalyzed : Nat
  dRemediated : Nat
  dSkipped : Nat
  analyzeCalls : Nat
  measureCalls : Nat
  vacuumCalls : Nat
deriving DecidableEq

/-- The loop body of `main` for one candidate (src/bloat_vacuum.py 395-436),
branch by branch:
* ANALYZE raising a psycopg2 `Error` is caught by the inner handler
  (lines 401-405): skipped increments, log names the ANALYZE step, `continue`;
  any other exception reaches the outermost `except Exception` (433-436):
  skipped increments, log does not name a step.
* after a successful ANALYZE, `analyzed` has already incremented (line 399);
  a pgstattuple `Error` reaches the outer `except Error` (429-432) and any
  other exception the outermost handler, each adding one skip.
* a measured percentage strictly below the threshold just continues (411-414);
* otherwise VACUUM runs once: on success `remediated` increments (419-423),
  on `Error` the inner handler adds a skip (424-427), and any other exception
  again falls to the outermost handler. -/
def processCandidate (threshold : ℚ) (b : Behavior) : CandResult :=
  match b.analyzeRes with
  | .dbError e => ⟨.skippedError .refresh e, 0, 0, 1, 1, 0, 0⟩
  | .otherError e => ⟨.skippedUnexpected e, 0, 0, 1, 1, 0, 0⟩
  | .ok _ =>
    match b.measureRes with
    | .dbError e => ⟨.skippedError .measure e, 1, 0, 1, 1, 1, 0⟩
    | .otherError e => ⟨.skippedUnexpected e, 1, 0, 1, 1, 1, 0⟩
    | .ok deadPct =>
      if deadPct < threshold then
        ⟨.analyzedBelow, 1, 0, 0, 1, 1, 0⟩
      else
        match b.vacuumRes with
        | .ok _ => ⟨.remediatedOk, 1, 1, 0, 1, 1, 1⟩
        | .dbError e => ⟨.skippedError .remediate e, 1, 0, 1, 1, 1, 1⟩
        | .otherError e => ⟨.skippedUnexpected e, 1, 0, 1, 1, 1, 1⟩

/-- The four run counters of `main`, initialised to zero at line 385-388. -/
structure Counters where
  checked : Nat
  analyzed : Nat
  remediated : Nat
  skipped : Nat
deriving DecidableEq

/-- Counter update performed for one candidate: `checked += 1` at line 392 and
the increments of the chosen branch of the loop body. -/
def applyCand (threshold : ℚ) (s : Counters) (b : Behavior) : Counters :=
  let r := processCandidate threshold b
  ⟨s.checked + 1, s.analyzed + r.dAnalyzed,
   s.remediated + r.dRemediated, s.skipped + r.dSkipped⟩

/-- The candidate loop of `main` (lines 391-436): processes the candidates in
order, threading the counters and emitting one outcome per candidate. -/
def runLoop (threshold : ℚ) : List Behavior → Counters → Counters × List Outcome
  | [], s => (s, [])
  | b :: rest, s =>
    let r := processCandidate threshold b
    let res := runLoop threshold rest (applyCand threshold s b)
    (res.1, r.outcome :: res.2)

/-- Final counters of a run over the given candidates. -/
def runCounters (threshold : ℚ) (cs : List Behavior) : Counters :=
  (runLoop threshold cs ⟨0, 0, 0, 0⟩).1

/-- Outcomes of a run over the given candidates. -/
def runOutcomes (threshold : ℚ) (cs : List Behavior) : List Outcome :=
  (runLoop threshold cs ⟨0, 0, 0, 0⟩).2

/-- True when executing the state machine on this behaviour raises a failure in
one of the steps it actually reaches: the refresh fails; or the refresh
succeeds and the measurement fails; or refresh and measurement succeed, the
percentage is at or above the threshold, and the VACUUM fails. -/
def stepFailureOccurs (threshold : ℚ) (b : Behavior) : Bool :=
  b.analyzeRes.isErr ||
  (!b.analyzeRes.isErr && b.measureRes.isErr) ||
  (match b.analyzeRes, b.measureRes with
   | .ok _, .ok deadPct => decide (threshold ≤ deadPct) && b.vacuumRes.isErr
   | _, _ => false)

/-- What `main` reports at the end of a non-fatal run: either the early
"Nothing to do" completion when the candidate list is empty (lines 379-383),
or the SUMMARY block with the four counters (lines 441-446). -/
inductive RunReport where
  | nothingToDo
  | summary (checked analyzed remediated skipped : Nat)
deriving DecidableEq

/-- True when the report is the SUMMARY block carrying the four counts. -/
def RunReport.isCountSummary : RunReport → Bool
  | .summary _ _ _ _ => true
  | _ => false

/-- The non-fatal part of `main` after connection and extension checks: the
empty candidate list returns early with "Nothing to do" and no counter summary
(lines 379-383); otherwise the loop runs and the SUMMARY block reports the four
counters (lines 441-446). -/
def runMain (threshold : ℚ) (cs : List Behavior) : RunReport :=
  if cs.isEmpty then .nothingToDo
  else
    let s := runCounters threshold cs
    .summary s.checked s.analyzed s.remediated s.skipped

/-- Embedding of ensure_pgstattuple (src/bloat_vacuum.py 180-198): true if the
extension already exists, otherwise true exactly when CREATE EXTENSION
succeeds. -/
def ensure_pgstattuple (extExists createOk : Bool) : Bool :=
  if extExists then true else createOk

/-- Top level of `main` (lines 351-367 and onward): a failed connection exits
with code 2; a missing and uninstallable pgstattuple extension exits with code
3; otherwise the run completes, produces its report, and the process ends
normally with exit code 0. -/
def mainRun (threshold : ℚ) (connectOk extExists createOk : Bool)
    (cs : List Behavior) : Nat × Option RunReport :=
  if !connectOk then (2, none)
  else if !ensure_pgstattuple extExists createOk then (3, none)
  else (0, some (runMain threshold cs))

/-- The str.strip method of Python: remove whitespace characters from both
ends of a string, written structurally over the underlying character list. -/
def stripWS (s : String) : String :=
  ⟨((s.data.dropWhile Char.isWhitespace).reverse.dropWhile Char.isWhitespace).reverse⟩

/-- Embedding of parse_target_schemas (src/bloat_vacuum.py 102-107): an empty
string yields the empty list; otherwise split on commas, strip each part, and
drop parts that are empty after stripping. -/
def parse_target_schemas (raw : String) : List String :=
  if raw = "" then []
  else ((raw.splitOn ",").map stripWS).filter (fun p => p ≠ "")

/-- One row of the prefilter query before filtering (src/bloat_vacuum.py
270-293): a pg_class row joined to pg_namespace, LEFT JOINed to
pg_stat_all_tables, so the statistics pair (n_live_tup, n_dead_tup) may be
absent. -/
structure PgClassRow where
  schemaName : String
  tableName : String
  relkind : Char
  stats : Option (Nat × Nat)
deriving DecidableEq

/-- The approx_dead_pct CASE expression of the prefilter query (lines
278-282): 0.0 when live + dead = 0, else dead * 100.0 / (live + dead). -/
def approx_dead_pct (live dead : Nat) : ℚ :=
  if live + dead = 0 then 0
  else (dead * 100 : ℚ) / ((live : ℚ) + (dead : ℚ))

/-- COALESCE of the possibly missing statistics row to (0, 0), as in lines
276-277. -/
def rowStats (r : PgClassRow) : Nat × Nat :=
  r.stats.getD (0, 0)

/-- Approximate dead percentage of one row after the COALESCE. -/
def rowPct (r : PgClassRow) : ℚ :=
  approx_dead_pct (rowStats r).1 (rowStats r).2

/-- The WHERE clause of the inner candidates CTE (lines 286-288): ordinary
tables only, excluding pg_catalog, information_schema and toast schemas. -/
def eligibleRow (r : PgClassRow) : Bool :=
  r.relkind = 'r' && r.schemaName ≠ "pg_catalog" &&
  r.schemaName ≠ "information_schema" && !(r.schemaName.startsWith "pg_toast")

/-- One candidate row as returned by get_candidate_tables: schema, table,
formatted qualified name, and the approximate dead percentage. -/
structure Candidate where
  schemaName : String
  tableName : String
  fqname : String
  approxPct : ℚ
deriving DecidableEq

/-- The SELECT list of the candidates CTE for one row (lines 272-282). -/
def mkCandidate (r : PgClassRow) : Candidate :=
  ⟨r.schemaName, r.tableName, r.schemaName ++ "." ++ r.tableName, rowPct r⟩

/-- Embedding of the get_candidate_tables query (src/bloat_vacuum.py 264-309):
keep eligible rows, compute each approximate percentage, keep rows at or above
the prefilter floor, optionally restrict to the target schema list, order by
descending percentage and truncate to the configured maximum. -/
def get_candidate_tables (floor : ℚ) (schemaList : List String) (cap : Nat)
    (rows : List PgClassRow) : List Candidate :=
  let base := (rows.filter eligibleRow).map mkCandidate
  let passed := base.filter (fun c => floor ≤ c.approxPct)
  let schemaFiltered :=
    if schemaList.isEmpty then passed
    else passed.filter (fun c => schemaList.contains c.schemaName)
  (schemaFiltered.mergeSort (fun a b => b.approxPct ≤ a.approxPct)).take cap

/-! Concrete database behaviours and catalog rows used to instantiate the
theorems below on closed inputs. -/

/-- A candidate whose ANALYZE raises a psycopg2 database error. -/
def bRefreshDb : Behavior := ⟨.dbError "lock timeout", .ok 0, .ok ()⟩

/-- A candidate whose ANALYZE raises a non-database exception. -/
def bRefreshOther : Behavior := ⟨.otherError "boom", .ok 0, .ok ()⟩

/-- A candidate where every call succeeds and the measured percentage is 50. -/
def bFullRemediate : Behavior := ⟨.ok (), .ok 50, .ok ()⟩

/-- A candidate where every call succeeds and the measured percentage is 1. -/
def bBelowThreshold : Behavior := ⟨.ok (), .ok 1, .ok ()⟩

/-- An ordinary user table with 50 live and 50 dead tuples. -/
def rowHalfDead : PgClassRow := ⟨"public", "t1", 'r', some (50, 50)⟩

/-- An ordinary user table with no pg_stat_all_tables row. -/
def rowNoStats : PgClassRow := ⟨"public", "tnostats", 'r', none⟩

/-! Helper lemmas shared by the claim theorems. -/

theorem mem_get_candidate_tables_floor (floor : ℚ) (schemaList : List String)
    (cap : Nat) (rows : List PgClassRow) (c : Candidate)
    (hc : c ∈ get_candidate_tables floor schemaList cap rows) :
    floor ≤ c.approxPct := by
  unfold get_candidate_tables at hc
  have h1 : c ∈ ((if schemaList.isEmpty then
      ((rows.filter eligibleRow).map mkCandidate).filter
        (fun c => floor ≤ c.approxPct)
    else
      (((rows.filter eligibleRow).map mkCandidate).filter
        (fun c => floor ≤ c.approxPct)).filter
          (fun c => schemaList.contains c.schemaName)).mergeSort
            (fun a b => b.approxPct ≤ a.approxPct)) :=
    (List.take_sublist _ _).subset hc
  have h2 := (List.mergeSort_perm _ _).mem_iff.mp h1
  have h3 : c ∈ ((rows.filter eligibleRow).map mkCandidate).filter
      (fun c => floor ≤ c.approxPct) := by
    by_cases hs : schemaList.isEmpty
    · simpa [hs] using h2
    · simp only [hs, if_false] at h2
      exact List.mem_of_mem_filter h2
  have h4 := List.of_mem_filter h3
  simpa using h4

/-- C4: for every pair of non-negative integers (live, dead), the approximate
dead-row percentage computed by the prefilter equals 0 when live + dead = 0,
and equals 100 * dead / (live + dead) otherwise. -/
theorem C4_approx_pct_formula (live dead : Nat) :
    (live + dead = 0 → approx_dead_pct live dead = 0) ∧
    (live + dead ≠ 0 →
      approx_dead_pct live dead = 100 * (dead : ℚ) / ((live : ℚ) + (dead : ℚ))) := by
  constructor
  · intro h
    simp [approx_dead_pct, h]
  · intro h
    unfold approx_dead_pct
    rw [if_neg h, mul_comm]

/-- Witness for C4 at live = 0, dead = 0 and live = 100, dead = 50. -/
theorem C4_approx_pct_formula_witness :
    approx_dead_pct 0 0 = 0 ∧
    approx_dead_pct 100 50 = 100 * ((50 : Nat) : ℚ) / (((100 : Nat) : ℚ) + ((50 : Nat) : ℚ)) :=
  ⟨(C4_approx_pct_formula 0 0).1 (by decide),
   (C4_approx_pct_formula 100 50).2 (by decide)⟩

/-- C9: parse_target_schemas splits on commas, trims whitespace, drops parts
that are empty after trimming, and maps the empty string to the empty list. -/
theorem C9_parse_target_schemas_spec (raw : String) :
    parse_target_schemas raw
      = ((raw.splitOn ",").map stripWS).filter (fun p => p ≠ "") ∧
    parse_target_schemas "" = ([] : List String) := by
  refine ⟨?_, rfl⟩
  by_cases h : raw = ""
  · subst h
    have hs : "".splitOn "," = [""] := by
      unfold String.splitOn
      rw [String.splitOnAux]
      rfl
    rw [hs]
    rfl
  · simp [parse_target_schemas, h]

/-- C8: the three terminal conditions exit with pairwise distinct codes: 2 when
the connection fails, 3 when pgstattuple is missing and cannot be created, and
0 on normal completion for every candidate list, including the empty one. -/
theorem C8_exit_codes (threshold : ℚ) (extExists createOk : Bool)
    (cs : List Behavior) :
    (mainRun threshold false extExists createOk cs).1 = 2 ∧
    (ensure_pgstattuple extExists createOk = false →
      (mainRun threshold true extExists createOk cs).1 = 3) ∧
    (ensure_pgstattuple extExists createOk = true →
      (mainRun threshold true extExists createOk cs).1 = 0) ∧
    ((2 : Nat) ≠ 3 ∧ (2 : Nat) ≠ 0 ∧ (3 : Nat) ≠ 0) := by
  refine ⟨rfl, ?_, ?_, by decide⟩
  · intro h
    simp [mainRun, h]
  · intro h
    simp [mainRun, h]

/-- Witness for C8: concrete runs hitting each of the three exit codes. -/
theorem C8_exit_codes_witness :
    (mainRun 2 false false false []).1 = 2 ∧
    (mainRun 2 true false false []).1 = 3 ∧
    (mainRun 2 true true true [bRefreshDb]).1 = 0 :=
  ⟨(C8_exit_codes 2 false false []).1,
   (C8_exit_codes 2 false false []).2.1 (by decide),
   (C8_exit_codes 2 true true [bRefreshDb]).2.2.1 (by decide)⟩

/-- C3: for a candidate whose ANALYZE succeeds and whose measurement returns a
percentage, VACUUM is never invoked when the percentage is strictly below the
threshold and is invoked exactly once when it is at or above it. -/
theorem C3_threshold_gates_vacuum (threshold deadPct : ℚ) (b : Behavior)
    (ha : b.analyzeRes = .ok ()) (hm : b.measureRes = .ok deadPct) :
    (deadPct < threshold → (processCandidate threshold b).vacuumCalls = 0) ∧
    (threshold ≤ deadPct → (processCandidate threshold b).vacuumCalls = 1) := by
  rcases b with ⟨a, m, v⟩
  simp only at ha hm
  subst ha
  subst hm
  constructor
  · intro h
    simp [processCandidate, h]
  · intro h
    have h2 : ¬ deadPct < threshold := not_lt.mpr h
    cases v <;> simp [processCandidate, h2]

/-- Witness for C3: percentage 1 is below threshold 2 and VACUUM is not called;
percentage 50 is above and VACUUM is called once. -/
theorem C3_threshold_gates_vacuum_witness :
    (processCandidate 2 bBelowThreshold).vacuumCalls = 0 ∧
    (processCandidate 2 bFullRemediate).vacuumCalls = 1 :=
  ⟨(C3_threshold_gates_vacuum 2 1 bBelowThreshold rfl rfl).1 (by norm_num),
   (C3_threshold_gates_vacuum 2 50 bFullRemediate rfl rfl).2 (by norm_num)⟩

/-- C6 counterexample: a refresh failure raised as a non-database exception is
contained and becomes a skip, but the recorded skip is the catch-all
`Unexpected error` outcome and is not attributed to the refresh step, so the
claim as stated fails for this candidate. -/
theorem C6_cex_unattributed_refresh_skip :
    bRefreshOther.analyzeRes.isErr = true ∧
    (processCandidate 2 bRefreshOther).outcome.isSkip = true ∧
    (processCandidate 2 bRefreshOther).outcome.isRefreshAttributedSkip = false := by
  refine ⟨rfl, rfl, rfl⟩

/-- C6 amended: a candidate whose refresh step fails never reaches the
measurement or remediation call and is recorded as a skip; the skip is
attributed to the refresh step when the failure is a psycopg2 database error,
while any other exception yields the unattributed catch-all skip. -/
theorem C6_refresh_failure_short_circuits (threshold : ℚ) (b : Behavior)
    (h : b.analyzeRes.isErr = true) :
    (processCandidate threshold b).measureCalls = 0 ∧
    (processCandidate threshold b).vacuumCalls = 0 ∧
    (processCandidate threshold b).outcome.isSkip = true ∧
    (∀ e, b.analyzeRes = .dbError e →
      (processCandidate threshold b).outcome = .skippedError .refresh e) := by
  rcases b with ⟨a, m, v⟩
  cases a with
  | ok u =>
    simp [StepRes.isErr] at h
  | dbError e =>
    refine ⟨rfl, rfl, rfl, ?_⟩
    intro e2 he
    simp only at he
    injection he with h2
    subst h2
    rfl
  | otherError e =>
    refine ⟨rfl, rfl, rfl, ?_⟩
    intro e2 he
    simp at he

/-- Witness for C6 amended: a database-error refresh failure at threshold 2. -/
theorem C6_refresh_failure_witness :
    (processCandidate 2 bRefreshDb).measureCalls = 0 ∧
    (processCandidate 2 bRefreshDb).outcome
      = Outcome.skippedError Step.refresh "lock timeout" :=
  ⟨(C6_refresh_failure_short_circuits 2 bRefreshDb rfl).1,
   (C6_refresh_failure_short_circuits 2 bRefreshDb rfl).2.2.2 "lock timeout" rfl⟩

/-- C2 counterexample: one candidate whose ANALYZE succeeds and whose VACUUM
succeeds increments both analyzed and remediated, so after that candidate
analyzed + remediated + skipped = 2 while checked = 1, refuting the claimed
equality. -/
theorem C2_cex_counters_not_partition :
    (runCounters 2 [bFullRemediate]).analyzed
      + (runCounters 2 [bFullRemediate]).remediated
      + (runCounters 2 [bFullRemediate]).skipped
      ≠ (runCounters 2 [bFullRemediate]).checked := by decide

/-- C2 amended: per candidate, checked increments by exactly 1; analyzed
increments by exactly 1 exactly when the ANALYZE refresh succeeds, even for
candidates that are later remediated or skipped; and at most one of remediated
and skipped increments, by exactly 1, with neither incrementing exactly on the
below-threshold outcome.  Hence remediated + skipped ≤ checked, but
analyzed + remediated + skipped can exceed checked. -/
theorem C2_counter_increments (threshold : ℚ) (s : Counters) (b : Behavior) :
    (applyCand threshold s b).checked = s.checked + 1 ∧
    (applyCand threshold s b).analyzed
      = s.analyzed + (if b.analyzeRes.isErr then 0 else 1) ∧
    ((processCandidate threshold b).dRemediated = 1
        ∧ (processCandidate threshold b).dSkipped = 0
      ∨ (processCandidate threshold b).dRemediated = 0
        ∧ (processCandidate threshold b).dSkipped = 1
      ∨ (processCandidate threshold b).dRemediated = 0
        ∧ (processCandidate threshold b).dSkipped = 0
        ∧ (processCandidate threshold b).outcome = .analyzedBelow) := by
  rcases b with ⟨a, m, v⟩
  refine ⟨rfl, ?_, ?_⟩
  · cases a with
    | ok u =>
      cases m with
      | ok deadPct =>
        by_cases hlt : deadPct < threshold
        · simp [applyCand, processCandidate, StepRes.isErr, hlt]
        · cases v <;> simp [applyCand, processCandidate, StepRes.isErr, hlt]
      | dbError e => simp [applyCand, processCandidate, StepRes.isErr]
      | otherError e => simp [applyCand, processCandidate, StepRes.isErr]
    | dbError e => simp [applyCand, processCandidate, StepRes.isErr]
    | otherError e => simp [applyCand, processCandidate, StepRes.isErr]
  · cases a with
    | ok u =>
      cases m with
      | ok deadPct =>
        by_cases hlt : deadPct < threshold
        · exact Or.inr (Or.inr (by simp [processCandidate, hlt]))
        · cases v with
          | ok u2 => exact Or.inl (by simp [processCandidate, hlt])
          | dbError e => exact Or.inr (Or.inl (by simp [processCandidate, hlt]))
          | otherError e => exact Or.inr (Or.inl (by simp [processCandidate, hlt]))
      | dbError e => exact Or.inr (Or.inl ⟨rfl, rfl⟩)
      | otherError e => exact Or.inr (Or.inl ⟨rfl, rfl⟩)
    | dbError e => exact Or.inr (Or.inl ⟨rfl, rfl⟩)
    | otherError e => exact Or.inr (Or.inl ⟨rfl, rfl⟩)

/-- C1: the run loop emits exactly one outcome per candidate, each outcome
depending only on that candidate's own behaviour (so no candidate failure
aborts the run or affects a sibling), and whenever a failure is raised in a
step the state machine actually reaches, the outcome for that candidate is a
skip. -/
theorem C1_failures_contained (threshold : ℚ) (cs : List Behavior)
    (s : Counters) :
    (runLoop threshold cs s).2
      = cs.map (fun b => (processCandidate threshold b).outcome) ∧
    (∀ b : Behavior, stepFailureOccurs threshold b = true →
      (processCandidate threshold b).outcome.isSkip = true) := by
  constructor
  · induction cs generalizing s with
    | nil => rfl
    | cons b rest ih =>
      simp only [runLoop, List.map]
      rw [ih]
  · intro b hb
    rcases b with ⟨a, m, v⟩
    cases a with
    | ok u =>
      cases m with
      | ok deadPct =>
        have hb2 : threshold ≤ deadPct ∧ v.isErr = true := by
          simpa [stepFailureOccurs, StepRes.isErr] using hb
        have hlt : ¬ deadPct < threshold := not_lt.mpr hb2.1
        have hv := hb2.2
        cases v with
        | ok u2 => simp [StepRes.isErr] at hv
        | dbError e => simp [processCandidate, hlt, Outcome.isSkip]
        | otherError e => simp [processCandidate, hlt, Outcome.isSkip]
      | dbError e => rfl
      | otherError e => rfl
    | dbError e => rfl
    | otherError e => rfl

/-- Witness for C1: a two-candidate run where the first candidate fails its
refresh; its outcome is a skip and the second candidate is still processed. -/
theorem C1_failures_contained_witness :
    (runLoop 2 [bRefreshDb, bFullRemediate] ⟨0, 0, 0, 0⟩).2
      = [(processCandidate 2 bRefreshDb).outcome,
         (processCandidate 2 bFullRemediate).outcome] ∧
    (processCandidate 2 bRefreshDb).outcome.isSkip = true :=
  ⟨(C1_failures_contained 2 [bRefreshDb, bFullRemediate] ⟨0, 0, 0, 0⟩).1,
   (C1_failures_contained 2 [bRefreshDb, bFullRemediate] ⟨0, 0, 0, 0⟩).2
     bRefreshDb (by decide)⟩

/-- C5: the candidate list returned by the prefilter is sorted by descending
approximate percentage, never exceeds the configured cap in length, and only
contains entries whose approximate percentage is at or above the floor. -/
theorem C5_prefilter_sorted_capped_floored (floor : ℚ) (schemaList : List String)
    (cap : Nat) (rows : List PgClassRow) :
    List.Pairwise (fun a b : Candidate => b.approxPct ≤ a.approxPct)
      (get_candidate_tables floor schemaList cap rows) ∧
    (get_candidate_tables floor schemaList cap rows).length ≤ cap ∧
    (∀ c, c ∈ get_candidate_tables floor schemaList cap rows →
      floor ≤ c.approxPct) := by
  refine ⟨?_, ?_, ?_⟩
  · unfold get_candidate_tables
    refine List.Pairwise.sublist (List.take_sublist _ _) ?_
    refine List.Pairwise.imp (fun h => of_decide_eq_true h) ?_
    refine List.sorted_mergeSort ?_ ?_ _
    · intro a b c hab hbc
      exact decide_eq_true (le_trans (of_decide_eq_true hbc) (of_decide_eq_true hab))
    · intro a b
      rcases le_total b.approxPct a.approxPct with h | h <;> simp [h]
  · unfold get_candidate_tables
    exact List.length_take_le cap _
  · intro c hc
    exact mem_get_candidate_tables_floor floor schemaList cap rows c hc

/-- Witness for C5 on a one-table catalog: the length bound holds and the
single produced candidate meets the floor. -/
theorem C5_prefilter_witness :
    (get_candidate_tables 1 [] 5 [rowHalfDead]).length ≤ 5 ∧
    (1 : ℚ) ≤ (mkCandidate rowHalfDead).approxPct := by
  have h := C5_prefilter_sorted_capped_floored 1 [] 5 [rowHalfDead]
  refine ⟨h.2.1, h.2.2 (mkCandidate rowHalfDead) ?_⟩
  have heval : get_candidate_tables 1 [] 5 [rowHalfDead]
      = [mkCandidate rowHalfDead] := by
    norm_num [get_candidate_tables, eligibleRow, rowHalfDead, mkCandidate,
      rowPct, rowStats, approx_dead_pct, List.filter, List.mergeSort_singleton]
  rw [heval]
  exact List.mem_singleton_self _

/-- C10: a table with no statistics row is treated as having 0 live and 0 dead
tuples, gets approximate percentage 0, and is excluded from the candidate list
whenever the prefilter floor is strictly positive. -/
theorem C10_missing_stats_excluded (r : PgClassRow) (floor : ℚ)
    (schemaList : List String) (cap : Nat) (rows : List PgClassRow)
    (hstats : r.stats = none) :
    rowStats r = (0, 0) ∧ rowPct r = 0 ∧
    (0 < floor → mkCandidate r ∉ get_candidate_tables floor schemaList cap rows) := by
  have h0 : rowStats r = (0, 0) := by
    simp [rowStats, hstats]
  have h1 : rowPct r = 0 := by
    simp [rowPct, h0, approx_dead_pct]
  refine ⟨h0, h1, ?_⟩
  intro hf hmem
  have h2 := mem_get_candidate_tables_floor floor schemaList cap rows
    (mkCandidate r) hmem
  have h3 : (mkCandidate r).approxPct = 0 := h1
  rw [h3] at h2
  exact absurd (lt_of_lt_of_le hf h2) (lt_irrefl 0)

/-- Witness for C10: the statistics-free table is excluded at floor 1. -/
theorem C10_missing_stats_witness :
    rowPct rowNoStats = 0 ∧
    mkCandidate rowNoStats ∉ get_candidate_tables 1 [] 5 [rowNoStats] :=
  ⟨(C10_missing_stats_excluded rowNoStats 1 [] 5 [rowNoStats] rfl).2.1,
   (C10_missing_stats_excluded rowNoStats 1 [] 5 [rowNoStats] rfl).2.2 (by norm_num)⟩

/-- C7 counterexample: a run with an established connection, an available
extension and an empty candidate list completes normally with exit code 0, yet
its final report is the early "Nothing to do" message, which does not carry the
checked / analyzed / remediated / skipped counts; so the claimed summary is not
produced in the empty-candidate case. -/
theorem C7_cex_empty_run_no_summary :
    (mainRun 2 true true true []).1 = 0 ∧
    (mainRun 2 true true true []).2 = some RunReport.nothingToDo ∧
    RunReport.nothingToDo.isCountSummary = false := by
  refine ⟨rfl, rfl, rfl⟩

/-- C7 amended: with a connection and the extension available, a run over a
non-empty candidate list always ends with the summary reporting the four
counters, however many per-candidate errors occurred; an empty candidate list
ends with the early "Nothing to do" report instead; and a failed connection
produces no report at all. -/
theorem C7_summary_on_nonempty (threshold : ℚ) (extExists createOk : Bool)
    (cs : List Behavior) (hext : ensure_pgstattuple extExists createOk = true) :
    (cs ≠ [] →
      (mainRun threshold true extExists createOk cs).2
        = some (.summary (runCounters threshold cs).checked
            (runCounters threshold cs).analyzed
            (runCounters threshold cs).remediated
            (runCounters threshold cs).skipped)) ∧
    (cs = [] →
      (mainRun threshold true extExists createOk cs).2 = some .nothingToDo) ∧
    (mainRun threshold false extExists createOk cs).2 = none := by
  refine ⟨?_, ?_, rfl⟩
  · intro hne
    have hcs : cs.isEmpty = false := by
      cases cs with
      | nil => exact absurd rfl hne
      | cons b rest => rfl
    simp [mainRun, hext, runMain, hcs]
  · intro hcs
    subst hcs
    simp [mainRun, hext, runMain]

/-- Witness for C7 amended: a one-candidate run ends with the counter
summary. -/
theorem C7_summary_witness :
    (mainRun 2 true true true [bFullRemediate]).2
      = some (RunReport.summary (runCounters 2 [bFullRemediate]).checked
          (runCounters 2 [bFullRemediate]).analyzed
          (runCounters 2 [bFullRemediate]).remediated
          (runCounters 2 [bFullRemediate]).skipped) :=
  (C7_summary_on_nonempty 2 true true [bFullRemediate] rfl).1 (by simp)

end BloatVacuum
